import Mathlib

/-
Verification of the chess rules engine in this repository.

The repository holds two Rust programs sharing the same board data model:
* a CLI program (crate chess_example) with the full rule engine
  (is_valid_move, one predicate per piece kind, make_move);
* a GUI program (crate chess) whose is_valid_move is a placeholder that
  always returns true, so its make_move applies every request.

Squares are (rank, file) pairs, each coordinate in 0..7; the 8 x 8 array
of Option<Piece> is embedded as a total function on Fin 8 x Fin 8 (a Rust
array of length 8 is exactly a total map on indices 0..7; out-of-range
indices panic in Rust and never arise here).  In a pair `sq : Square`,
`sq.1` is the rank (Rust tuple field .0) and `sq.2` the file (field .1).
-/

abbrev Square : Type := Fin 8 × Fin 8

namespace ChessExample

inductive PieceType where
  | King
  | Queen
  | Rook
  | Bishop
  | Knight
  | Pawn
deriving DecidableEq, Repr

inductive Color where
  | White
  | Black
deriving DecidableEq, Repr

structure Piece where
  piece_type : PieceType
  color : Color
deriving DecidableEq, Repr

structure ChessBoard where
  board : Fin 8 → Fin 8 → Option Piece
  current_turn : Color

/-- The back-rank piece order written into ranks 0 and 7 by ChessBoard::new
(the Rust `piece_order` array indexed by file).  Only indices 0..7 are ever
used; the final catch-all case covers index 7. -/
def piece_order (i : Nat) : PieceType :=
  match i with
  | 0 => PieceType.Rook
  | 1 => PieceType.Knight
  | 2 => PieceType.Bishop
  | 3 => PieceType.Queen
  | 4 => PieceType.King
  | 5 => PieceType.Bishop
  | 6 => PieceType.Knight
  | _ => PieceType.Rook

/-- ChessBoard::new — pawns on ranks 1 (White) and 6 (Black), the
piece_order back ranks on 0 (White) and 7 (Black), all other squares empty,
White to move. -/
def ChessBoard.new : ChessBoard where
  board := fun r f =>
    if r.val = 1 then some { piece_type := PieceType.Pawn, color := Color.White }
    else if r.val = 6 then some { piece_type := PieceType.Pawn, color := Color.Black }
    else if r.val = 0 then some { piece_type := piece_order f.val, color := Color.White }
    else if r.val = 7 then some { piece_type := piece_order f.val, color := Color.Black }
    else none
  current_turn := Color.White

/-- ChessBoard::is_valid_rook_move.  The Rust method takes &self but never
reads the board, so the receiver is dropped here. -/
def is_valid_rook_move (frm t : Square) : Bool :=
  frm.1 == t.1 || frm.2 == t.2

/-- ChessBoard::is_valid_knight_move (receiver unused in the source). -/
def is_valid_knight_move (frm t : Square) : Bool :=
  let dx := ((t.1 : Int) - (frm.1 : Int)).natAbs
  let dy := ((t.2 : Int) - (frm.2 : Int)).natAbs
  (dx == 2 && dy == 1) || (dx == 1 && dy == 2)

/-- ChessBoard::is_valid_bishop_move (receiver unused in the source). -/
def is_valid_bishop_move (frm t : Square) : Bool :=
  let dx := ((t.1 : Int) - (frm.1 : Int)).natAbs
  let dy := ((t.2 : Int) - (frm.2 : Int)).natAbs
  dx == dy

/-- ChessBoard::is_valid_queen_move (receiver unused in the source). -/
def is_valid_queen_move (frm t : Square) : Bool :=
  is_valid_rook_move frm t || is_valid_bishop_move frm t

/-- ChessBoard::is_valid_king_move (receiver unused in the source). -/
def is_valid_king_move (frm t : Square) : Bool :=
  let dx := ((t.1 : Int) - (frm.1 : Int)).natAbs
  let dy := ((t.2 : Int) - (frm.2 : Int)).natAbs
  decide (dx ≤ 1) && decide (dy ≤ 1)

/-- Board lookup at an Int rank.  In the source the pawn predicate indexes
`self.board[forward][from.1]` with `forward` computed by integer
arithmetic; at its single use site `forward` is provably 2 or 5, so the
out-of-range default is never reached. -/
def pieceAtI (b : ChessBoard) (r : Int) (f : Fin 8) : Option Piece :=
  if h : 0 ≤ r ∧ r < 8 then b.board (Fin.mk r.toNat (by omega)) f else none

/-- ChessBoard::is_valid_pawn_move.  Rust computes
`forward = (from.0 as i32 + direction) as usize` and compares it with
`to.0`; since `to.0` is at most 7 and the Int value of forward lies in
[-1, 9], comparing over Int agrees with the wrapped usize comparison. -/
def is_valid_pawn_move (b : ChessBoard) (frm t : Square) (color : Color) : Bool :=
  let direction : Int := if color == Color.White then 1 else -1
  let start_row : Nat := if color == Color.White then 1 else 6
  let forward : Int := (frm.1 : Int) + direction
  let double_forward : Int := (frm.1 : Int) + 2 * direction
  if (t.1 : Int) == forward && t.2 == frm.2 && (b.board t.1 t.2).isNone then
    true
  else if frm.1.val == start_row && (t.1 : Int) == double_forward && t.2 == frm.2 then
    (pieceAtI b forward frm.2).isNone && (b.board t.1 t.2).isNone
  else if (t.1 : Int) == forward && ((t.2 : Int) - (frm.2 : Int)).natAbs == 1 then
    (b.board t.1 t.2).isSome
  else
    false

/-- ChessBoard::is_valid_move — the aggregate legality predicate:
no null move, a piece must stand on frm, it must belong to the side to
move, the destination must not hold a same-color piece, then dispatch on
the piece kind. -/
def is_valid_move (b : ChessBoard) (frm t : Square) : Bool :=
  if frm == t then false
  else
    match b.board frm.1 frm.2 with
    | none => false
    | some piece =>
      if piece.color != b.current_turn then false
      else if (match b.board t.1 t.2 with
               | some dest_piece => dest_piece.color == piece.color
               | none => false) then false
      else
        match piece.piece_type with
        | PieceType.Pawn => is_valid_pawn_move b frm t piece.color
        | PieceType.Rook => is_valid_rook_move frm t
        | PieceType.Knight => is_valid_knight_move frm t
        | PieceType.Bishop => is_valid_bishop_move frm t
        | PieceType.Queen => is_valid_queen_move frm t
        | PieceType.King => is_valid_king_move frm t

/-- Write one square of the 8 x 8 grid (the Rust array assignment
`self.board[sq.0][sq.1] = p`). -/
def setSquare (board : Fin 8 → Fin 8 → Option Piece) (sq : Square) (p : Option Piece) :
    Fin 8 → Fin 8 → Option Piece :=
  fun r f => if r = sq.1 ∧ f = sq.2 then p else board r f

/-- ChessBoard::make_move — validates with is_valid_move and, on success,
copies the piece at frm onto t, empties frm and flips the turn.  The Bool
result is the Rust return value; the ChessBoard is the mutated receiver. -/
def make_move (b : ChessBoard) (frm t : Square) : Bool × ChessBoard :=
  if !is_valid_move b frm t then
    (false, b)
  else
    (true,
      { board := setSquare (setSquare b.board t (b.board frm.1 frm.2)) frm none
        current_turn :=
          if b.current_turn == Color.White then Color.Black else Color.White })

/-- Number of occupied squares on the board. -/
def occupiedCount (b : ChessBoard) : Nat :=
  ∑ sq : Square, if (b.board sq.1 sq.2).isSome then 1 else 0

end ChessExample

namespace ChessGui

inductive PieceType where
  | King
  | Queen
  | Rook
  | Bishop
  | Knight
  | Pawn
deriving DecidableEq, Repr

inductive PieceColor where
  | White
  | Black
deriving DecidableEq, Repr

structure Piece where
  piece_type : PieceType
  color : PieceColor
deriving DecidableEq, Repr

structure ChessBoard where
  board : Fin 8 → Fin 8 → Option Piece
  current_turn : PieceColor

/-- The GUI crate's back-rank order — same array as in the CLI crate. -/
def piece_order (i : Nat) : PieceType :=
  match i with
  | 0 => PieceType.Rook
  | 1 => PieceType.Knight
  | 2 => PieceType.Bishop
  | 3 => PieceType.Queen
  | 4 => PieceType.King
  | 5 => PieceType.Bishop
  | 6 => PieceType.Knight
  | _ => PieceType.Rook

/-- The GUI crate's ChessBoard::new — identical setup to the CLI crate. -/
def ChessBoard.new : ChessBoard where
  board := fun r f =>
    if r.val = 1 then some { piece_type := PieceType.Pawn, color := PieceColor.White }
    else if r.val = 6 then some { piece_type := PieceType.Pawn, color := PieceColor.Black }
    else if r.val = 0 then some { piece_type := piece_order f.val, color := PieceColor.White }
    else if r.val = 7 then some { piece_type := piece_order f.val, color := PieceColor.Black }
    else none
  current_turn := PieceColor.White

/-- The GUI crate's ChessBoard::is_valid_move — a placeholder returning
true for every input (both arguments are ignored in the source). -/
def is_valid_move (_b : ChessBoard) (_frm _t : Square) : Bool :=
  true

/-- Write one square of the GUI crate's grid. -/
def setSquare (board : Fin 8 → Fin 8 → Option Piece) (sq : Square) (p : Option Piece) :
    Fin 8 → Fin 8 → Option Piece :=
  fun r f => if r = sq.1 ∧ f = sq.2 then p else board r f

/-- The GUI crate's ChessBoard::make_move — same body as the CLI crate's,
but its is_valid_move check always passes. -/
def make_move (b : ChessBoard) (frm t : Square) : Bool × ChessBoard :=
  if !is_valid_move b frm t then
    (false, b)
  else
    (true,
      { board := setSquare (setSquare b.board t (b.board frm.1 frm.2)) frm none
        current_turn :=
          if b.current_turn == PieceColor.White then PieceColor.Black
          else PieceColor.White })

end ChessGui

namespace ChessExample

theorem setSquare_self (board : Fin 8 → Fin 8 → Option Piece) (sq : Square) (p : Option Piece) :
    setSquare board sq p sq.1 sq.2 = p := by
  simp [setSquare]

theorem setSquare_ne (board : Fin 8 → Fin 8 → Option Piece) (sq sq2 : Square)
    (p : Option Piece) (h : sq2 ≠ sq) :
    setSquare board sq p sq2.1 sq2.2 = board sq2.1 sq2.2 := by
  have hc : ¬ (sq2.1 = sq.1 ∧ sq2.2 = sq.2) := by
    rintro ⟨h1, h2⟩
    exact h (Prod.ext h1 h2)
  simp [setSquare, hc]

theorem is_valid_move_ne {b : ChessBoard} {frm t : Square}
    (h : is_valid_move b frm t = true) : frm ≠ t := by
  intro he
  simp [is_valid_move, he] at h

theorem is_valid_move_exists {b : ChessBoard} {frm t : Square}
    (h : is_valid_move b frm t = true) : ∃ p, b.board frm.1 frm.2 = some p := by
  cases hb : b.board frm.1 frm.2 with
  | none => simp [is_valid_move, hb] at h
  | some p => exact ⟨p, rfl⟩

theorem make_move_of_invalid {b : ChessBoard} {frm t : Square}
    (h : is_valid_move b frm t = false) : make_move b frm t = (false, b) := by
  simp [make_move, h]

theorem make_move_of_valid {b : ChessBoard} {frm t : Square}
    (h : is_valid_move b frm t = true) :
    make_move b frm t =
      (true,
        { board := setSquare (setSquare b.board t (b.board frm.1 frm.2)) frm none
          current_turn :=
            if b.current_turn == Color.White then Color.Black else Color.White }) := by
  simp [make_move, h]

theorem make_move_fst (b : ChessBoard) (frm t : Square) :
    (make_move b frm t).1 = is_valid_move b frm t := by
  cases h : is_valid_move b frm t with
  | false => simp [make_move_of_invalid h]
  | true => simp [make_move_of_valid h]

theorem make_move_board_of_valid {b : ChessBoard} {frm t : Square}
    (h : is_valid_move b frm t = true) :
    (make_move b frm t).2.board =
      setSquare (setSquare b.board t (b.board frm.1 frm.2)) frm none := by
  rw [make_move_of_valid h]

theorem make_move_turn_of_valid {b : ChessBoard} {frm t : Square}
    (h : is_valid_move b frm t = true) :
    (make_move b frm t).2.current_turn =
      (if b.current_turn == Color.White then Color.Black else Color.White) := by
  rw [make_move_of_valid h]

theorem occupiedCount_make_move (b : ChessBoard) (frm t : Square)
    (h : is_valid_move b frm t = true) :
    occupiedCount (make_move b frm t).2 + (if (b.board t.1 t.2).isSome then 1 else 0) =
      occupiedCount b := by
  obtain ⟨p, hp⟩ := is_valid_move_exists h
  have hne : frm ≠ t := is_valid_move_ne h
  simp only [occupiedCount, make_move_board_of_valid h]
  set B2 := setSquare (setSquare b.board t (b.board frm.1 frm.2)) frm none with hB2
  have hfu : frm ∈ (Finset.univ : Finset Square) := Finset.mem_univ _
  have htu : t ∈ (Finset.univ : Finset Square).erase frm :=
    Finset.mem_erase.mpr ⟨Ne.symm hne, Finset.mem_univ _⟩
  rw [← Finset.add_sum_erase _ (fun sq : Square => if (B2 sq.1 sq.2).isSome then 1 else 0) hfu,
      ← Finset.add_sum_erase _ (fun sq : Square => if (b.board sq.1 sq.2).isSome then 1 else 0) hfu,
      ← Finset.add_sum_erase _ (fun sq : Square => if (B2 sq.1 sq.2).isSome then 1 else 0) htu,
      ← Finset.add_sum_erase _ (fun sq : Square => if (b.board sq.1 sq.2).isSome then 1 else 0) htu]
  have h2frm : B2 frm.1 frm.2 = none := by
    rw [hB2, setSquare_self]
  have h2t : B2 t.1 t.2 = some p := by
    rw [hB2, setSquare_ne _ _ _ _ (Ne.symm hne), setSquare_self, hp]
  have hcongr :
      ∑ sq ∈ ((Finset.univ : Finset Square).erase frm).erase t,
          (if (B2 sq.1 sq.2).isSome then 1 else 0) =
        ∑ sq ∈ ((Finset.univ : Finset Square).erase frm).erase t,
          (if (b.board sq.1 sq.2).isSome then 1 else 0) := by
    refine Finset.sum_congr rfl ?_
    intro sq hsq
    have hst : sq ≠ t := (Finset.mem_erase.mp hsq).1
    have hsf : sq ≠ frm := (Finset.mem_erase.mp (Finset.mem_erase.mp hsq).2).1
    rw [hB2, setSquare_ne _ _ _ _ hsf, setSquare_ne _ _ _ _ hst]
  rw [hcongr, h2frm, h2t, hp]
  simp
  omega

end ChessExample

namespace ChessGui

theorem gui_setSquare_self (board : Fin 8 → Fin 8 → Option Piece) (sq : Square)
    (p : Option Piece) :
    setSquare board sq p sq.1 sq.2 = p := by
  simp [setSquare]

theorem gui_setSquare_ne (board : Fin 8 → Fin 8 → Option Piece) (sq sq2 : Square)
    (p : Option Piece) (h : sq2 ≠ sq) :
    setSquare board sq p sq2.1 sq2.2 = board sq2.1 sq2.2 := by
  have hc : ¬ (sq2.1 = sq.1 ∧ sq2.2 = sq.2) := by
    rintro ⟨h1, h2⟩
    exact h (Prod.ext h1 h2)
  simp [setSquare, hc]

theorem make_move_eq (b : ChessBoard) (frm t : Square) :
    make_move b frm t =
      (true,
        { board := setSquare (setSquare b.board t (b.board frm.1 frm.2)) frm none
          current_turn :=
            if b.current_turn == PieceColor.White then PieceColor.Black
            else PieceColor.White }) := by
  simp [make_move, is_valid_move]

theorem make_move_board (b : ChessBoard) (frm t : Square) :
    (make_move b frm t).2.board =
      setSquare (setSquare b.board t (b.board frm.1 frm.2)) frm none := by
  rw [make_move_eq]

theorem make_move_turn (b : ChessBoard) (frm t : Square) :
    (make_move b frm t).2.current_turn =
      (if b.current_turn == PieceColor.White then PieceColor.Black else PieceColor.White) := by
  rw [make_move_eq]

end ChessGui

/-- Claim C1, counterexample: on the standard initial board, is_valid_move
from (0,0) to (0,7) does NOT return true — (0,7) holds the White rook on
h1, so the same-color-destination guard rejects the move before any shape
check; the claimed result true is wrong. -/
theorem c1_counterexample :
    ¬ (ChessExample.is_valid_move ChessExample.ChessBoard.new (0, 0) (0, 7) = true) := by
  decide

/-- Claim C1, amended: on the standard initial board, is_valid_move from
(0,0) to (0,7) returns false — not because of path blocking (the rook
shape predicate accepts the move and inspects no intermediate square), but
because the destination h1 holds the White rook and same-side capture is
rejected. -/
theorem c1_rook_a1_h1_initial :
    ChessExample.ChessBoard.new.board 0 0 =
      some { piece_type := ChessExample.PieceType.Rook, color := ChessExample.Color.White } ∧
    ChessExample.ChessBoard.new.board 0 7 =
      some { piece_type := ChessExample.PieceType.Rook, color := ChessExample.Color.White } ∧
    ChessExample.is_valid_rook_move (0, 0) (0, 7) = true ∧
    ChessExample.is_valid_move ChessExample.ChessBoard.new (0, 0) (0, 7) = false := by
  refine ⟨by decide, by decide, by decide, by decide⟩

/-- Claim C5: both crates' ChessBoard::new produce the standard initial
position — White back rank Rook,Knight,Bishop,Queen,King,Bishop,Knight,Rook
on rank 0 files 0..7, Black's mirror on rank 7, all eight White pawns on
rank 1 and all eight Black pawns on rank 6, ranks 2..5 empty, and White to
move. -/
theorem c5_initial_position :
    ((List.finRange 8).map (fun f => ChessExample.ChessBoard.new.board 0 f) =
      [some { piece_type := ChessExample.PieceType.Rook, color := ChessExample.Color.White },
       some { piece_type := ChessExample.PieceType.Knight, color := ChessExample.Color.White },
       some { piece_type := ChessExample.PieceType.Bishop, color := ChessExample.Color.White },
       some { piece_type := ChessExample.PieceType.Queen, color := ChessExample.Color.White },
       some { piece_type := ChessExample.PieceType.King, color := ChessExample.Color.White },
       some { piece_type := ChessExample.PieceType.Bishop, color := ChessExample.Color.White },
       some { piece_type := ChessExample.PieceType.Knight, color := ChessExample.Color.White },
       some { piece_type := ChessExample.PieceType.Rook, color := ChessExample.Color.White }]) ∧
    ((List.finRange 8).map (fun f => ChessExample.ChessBoard.new.board 7 f) =
      [some { piece_type := ChessExample.PieceType.Rook, color := ChessExample.Color.Black },
       some { piece_type := ChessExample.PieceType.Knight, color := ChessExample.Color.Black },
       some { piece_type := ChessExample.PieceType.Bishop, color := ChessExample.Color.Black },
       some { piece_type := ChessExample.PieceType.Queen, color := ChessExample.Color.Black },
       some { piece_type := ChessExample.PieceType.King, color := ChessExample.Color.Black },
       some { piece_type := ChessExample.PieceType.Bishop, color := ChessExample.Color.Black },
       some { piece_type := ChessExample.PieceType.Knight, color := ChessExample.Color.Black },
       some { piece_type := ChessExample.PieceType.Rook, color := ChessExample.Color.Black }]) ∧
    (∀ f : Fin 8,
      ChessExample.ChessBoard.new.board 1 f =
        some { piece_type := ChessExample.PieceType.Pawn, color := ChessExample.Color.White } ∧
      ChessExample.ChessBoard.new.board 6 f =
        some { piece_type := ChessExample.PieceType.Pawn, color := ChessExample.Color.Black }) ∧
    (∀ r f : Fin 8, 2 ≤ r.val → r.val ≤ 5 → ChessExample.ChessBoard.new.board r f = none) ∧
    ChessExample.ChessBoard.new.current_turn = ChessExample.Color.White ∧
    ((List.finRange 8).map (fun f => ChessGui.ChessBoard.new.board 0 f) =
      [some { piece_type := ChessGui.PieceType.Rook, color := ChessGui.PieceColor.White },
       some { piece_type := ChessGui.PieceType.Knight, color := ChessGui.PieceColor.White },
       some { piece_type := ChessGui.PieceType.Bishop, color := ChessGui.PieceColor.White },
       some { piece_type := ChessGui.PieceType.Queen, color := ChessGui.PieceColor.White },
       some { piece_type := ChessGui.PieceType.King, color := ChessGui.PieceColor.White },
       some { piece_type := ChessGui.PieceType.Bishop, color := ChessGui.PieceColor.White },
       some { piece_type := ChessGui.PieceType.Knight, color := ChessGui.PieceColor.White },
       some { piece_type := ChessGui.PieceType.Rook, color := ChessGui.PieceColor.White }]) ∧
    ((List.finRange 8).map (fun f => ChessGui.ChessBoard.new.board 7 f) =
      [some { piece_type := ChessGui.PieceType.Rook, color := ChessGui.PieceColor.Black },
       some { piece_type := ChessGui.PieceType.Knight, color := ChessGui.PieceColor.Black },
       some { piece_type := ChessGui.PieceType.Bishop, color := ChessGui.PieceColor.Black },
       some { piece_type := ChessGui.PieceType.Queen, color := ChessGui.PieceColor.Black },
       some { piece_type := ChessGui.PieceType.King, color := ChessGui.PieceColor.Black },
       some { piece_type := ChessGui.PieceType.Bishop, color := ChessGui.PieceColor.Black },
       some { piece_type := ChessGui.PieceType.Knight, color := ChessGui.PieceColor.Black },
       some { piece_type := ChessGui.PieceType.Rook, color := ChessGui.PieceColor.Black }]) ∧
    (∀ f : Fin 8,
      ChessGui.ChessBoard.new.board 1 f =
        some { piece_type := ChessGui.PieceType.Pawn, color := ChessGui.PieceColor.White } ∧
      ChessGui.ChessBoard.new.board 6 f =
        some { piece_type := ChessGui.PieceType.Pawn, color := ChessGui.PieceColor.Black }) ∧
    (∀ r f : Fin 8, 2 ≤ r.val → r.val ≤ 5 → ChessGui.ChessBoard.new.board r f = none) ∧
    ChessGui.ChessBoard.new.current_turn = ChessGui.PieceColor.White := by
  decide

/-- Claim C5, witness: the mid-board squares (3,3) of the CLI setup and
(4,0) of the GUI setup are empty in the respective initial positions. -/
theorem c5_witness :
    ChessExample.ChessBoard.new.board 3 3 = none ∧
    ChessGui.ChessBoard.new.board 4 0 = none :=
  ⟨c5_initial_position.2.2.2.1 3 3 (by decide) (by decide),
   c5_initial_position.2.2.2.2.2.2.2.2.1 4 0 (by decide) (by decide)⟩

/-- Claim C6: from the standard initial board, the White double pawn step
(1,4) to (3,4) is legal; after applying it, the Black double pawn step
(6,4) to (4,4) is legal; after applying that as well, it is White's turn
again. -/
theorem c6_double_step_scenario :
    ChessExample.is_valid_move ChessExample.ChessBoard.new (1, 4) (3, 4) = true ∧
    ChessExample.is_valid_move
      (ChessExample.make_move ChessExample.ChessBoard.new (1, 4) (3, 4)).2 (6, 4) (4, 4) = true ∧
    (ChessExample.make_move
      (ChessExample.make_move ChessExample.ChessBoard.new (1, 4) (3, 4)).2
      (6, 4) (4, 4)).2.current_turn = ChessExample.Color.White := by
  refine ⟨by decide, by decide, by decide⟩

/-- Claim C2, counterexample: the CLI crate's make_move does check
legality.  Called on the initial board with the empty square (3,3) as
origin, it returns false and leaves the board and the side-to-move
untouched, instead of relocating the empty square and flipping the turn as
the claim asserts for every board and every pair of squares. -/
theorem c2_counterexample :
    ChessExample.ChessBoard.new.board 3 3 = none ∧
    ChessExample.make_move ChessExample.ChessBoard.new (3, 3) (4, 4) =
      (false, ChessExample.ChessBoard.new) ∧
    (ChessExample.make_move ChessExample.ChessBoard.new (3, 3) (4, 4)).2.current_turn =
      ChessExample.Color.White ∧
    ¬ ((ChessExample.make_move ChessExample.ChessBoard.new (3, 3) (4, 4)).2.current_turn =
        ChessExample.Color.Black) := by
  have h : ChessExample.is_valid_move ChessExample.ChessBoard.new (3, 3) (4, 4) = false := by
    decide
  have hm := ChessExample.make_move_of_invalid h
  refine ⟨by decide, hm, ?_, ?_⟩
  · rw [hm]
    rfl
  · rw [hm]
    decide

/-- Claim C2, amended: only the GUI crate's make_move applies every
request unconditionally — its is_valid_move placeholder accepts all input,
so it always returns true, copies whatever is at frm onto t (when the two
squares differ), empties frm and flips the side-to-move, even when frm is
empty.  The CLI crate's make_move instead checks is_valid_move first: on
an illegal move it returns false leaving board and turn unchanged, and it
performs the blind relocation only on accepted moves. -/
theorem c2_make_move_checking :
    (∀ (b : ChessGui.ChessBoard) (frm t : Square), ChessGui.is_valid_move b frm t = true) ∧
    (∀ (b : ChessGui.ChessBoard) (frm t : Square),
      (ChessGui.make_move b frm t).1 = true ∧
      (ChessGui.make_move b frm t).2.current_turn =
        (if b.current_turn = ChessGui.PieceColor.White then ChessGui.PieceColor.Black
         else ChessGui.PieceColor.White) ∧
      (ChessGui.make_move b frm t).2.board frm.1 frm.2 = none ∧
      (frm ≠ t → (ChessGui.make_move b frm t).2.board t.1 t.2 = b.board frm.1 frm.2)) ∧
    (∀ (b : ChessExample.ChessBoard) (frm t : Square),
      ChessExample.is_valid_move b frm t = false →
        ChessExample.make_move b frm t = (false, b)) ∧
    (∀ (b : ChessExample.ChessBoard) (frm t : Square),
      ChessExample.is_valid_move b frm t = true →
        (ChessExample.make_move b frm t).1 = true ∧
        (ChessExample.make_move b frm t).2.board frm.1 frm.2 = none ∧
        (ChessExample.make_move b frm t).2.board t.1 t.2 = b.board frm.1 frm.2) := by
  refine ⟨fun b frm t => rfl, fun b frm t => ?_, fun b frm t h => ChessExample.make_move_of_invalid h,
          fun b frm t h => ?_⟩
  · refine ⟨?_, ?_, ?_, fun hne => ?_⟩
    · rw [ChessGui.make_move_eq]
    · rw [ChessGui.make_move_turn]
      cases b.current_turn <;> simp
    · rw [ChessGui.make_move_board, ChessGui.gui_setSquare_self]
    · rw [ChessGui.make_move_board, ChessGui.gui_setSquare_ne _ _ _ _ (Ne.symm hne),
          ChessGui.gui_setSquare_self]
  · have hne : frm ≠ t := ChessExample.is_valid_move_ne h
    refine ⟨?_, ?_, ?_⟩
    · rw [ChessExample.make_move_fst, h]
    · rw [ChessExample.make_move_board_of_valid h, ChessExample.setSquare_self]
    · rw [ChessExample.make_move_board_of_valid h,
          ChessExample.setSquare_ne _ _ _ _ (Ne.symm hne), ChessExample.setSquare_self]

/-- Claim C2, witness: the GUI make_move relocates the a1 rook to (4,4);
the CLI make_move rejects the empty-origin move (3,3) to (4,4) leaving the
board unchanged, and applies the legal pawn move (1,4) to (3,4). -/
theorem c2_witness :
    (ChessGui.make_move ChessGui.ChessBoard.new (0, 0) (4, 4)).2.board 4 4 =
      ChessGui.ChessBoard.new.board 0 0 ∧
    ChessExample.make_move ChessExample.ChessBoard.new (3, 3) (4, 4) =
      (false, ChessExample.ChessBoard.new) ∧
    (ChessExample.make_move ChessExample.ChessBoard.new (1, 4) (3, 4)).2.board 3 4 =
      ChessExample.ChessBoard.new.board 1 4 := by
  refine ⟨(c2_make_move_checking.2.1 ChessGui.ChessBoard.new (0, 0) (4, 4)).2.2.2 (by decide),
          c2_make_move_checking.2.2.1 ChessExample.ChessBoard.new (3, 3) (4, 4) (by decide),
          (c2_make_move_checking.2.2.2 ChessExample.ChessBoard.new (1, 4) (3, 4) (by decide)).2.2⟩

/-- Claim C3: whenever the CLI crate's make_move applies a move (returns
true), the side-to-move afterwards is the opposite of its value before the
call; and whenever is_valid_move is false, make_move returns false with
the board mapping and side-to-move both unchanged. -/
theorem c3_turn_alternation :
    ∀ (b : ChessExample.ChessBoard) (frm t : Square),
      ((ChessExample.make_move b frm t).1 = true →
        (ChessExample.make_move b frm t).2.current_turn =
          (if b.current_turn = ChessExample.Color.White then ChessExample.Color.Black
           else ChessExample.Color.White)) ∧
      (ChessExample.is_valid_move b frm t = false →
        ChessExample.make_move b frm t = (false, b)) := by
  intro b frm t
  constructor
  · intro h
    rw [ChessExample.make_move_fst] at h
    rw [ChessExample.make_move_turn_of_valid h]
    cases b.current_turn <;> simp
  · exact fun h => ChessExample.make_move_of_invalid h

/-- Claim C3, witness: applying the legal pawn move (1,4) to (3,4) on the
initial board flips the turn to Black, and the illegal null move (0,0) to
(0,0) leaves the initial board fully unchanged. -/
theorem c3_witness :
    (ChessExample.make_move ChessExample.ChessBoard.new (1, 4) (3, 4)).2.current_turn =
      ChessExample.Color.Black ∧
    ChessExample.make_move ChessExample.ChessBoard.new (0, 0) (0, 0) =
      (false, ChessExample.ChessBoard.new) := by
  refine ⟨?_, (c3_turn_alternation ChessExample.ChessBoard.new (0, 0) (0, 0)).2 (by decide)⟩
  have h := (c3_turn_alternation ChessExample.ChessBoard.new (1, 4) (3, 4)).1 (by decide)
  exact h.trans (by decide)

/-- Claim C4: with a White pawn on (1,0) and White to move, the double
step (1,0) to (3,0) is illegal whenever (2,0) is occupied (blocked
intermediate square), the single step (1,0) to (2,0) is illegal whenever
(2,0) is occupied, and the single step is legal whenever (2,0) is
empty. -/
theorem c4_pawn_blocking :
    ∀ b : ChessExample.ChessBoard,
      b.board 1 0 = some { piece_type := ChessExample.PieceType.Pawn,
                           color := ChessExample.Color.White } →
      b.current_turn = ChessExample.Color.White →
      (((b.board 2 0).isSome = true → ChessExample.is_valid_move b (1, 0) (3, 0) = false) ∧
       ((b.board 2 0).isSome = true → ChessExample.is_valid_move b (1, 0) (2, 0) = false) ∧
       (b.board 2 0 = none → ChessExample.is_valid_move b (1, 0) (2, 0) = true)) := by
  intro b hpawn hturn
  refine ⟨?_, ?_, ?_⟩
  · intro hocc
    have hnone : (b.board 2 0).isNone = false := by
      cases hb : b.board 2 0 <;> simp [hb] at hocc ⊢
    cases hd : b.board 3 0 with
    | none =>
      simp [ChessExample.is_valid_move, hpawn, hturn, hd, ChessExample.is_valid_pawn_move,
            ChessExample.pieceAtI, hnone]
      decide
    | some dp =>
      simp [ChessExample.is_valid_move, hpawn, hturn, hd, ChessExample.is_valid_pawn_move,
            ChessExample.pieceAtI, hnone]
  · intro hocc
    obtain ⟨q, hq⟩ := Option.isSome_iff_exists.mp hocc
    simp [ChessExample.is_valid_move, hpawn, hturn, hq, ChessExample.is_valid_pawn_move]
  · intro hemp
    simp [ChessExample.is_valid_move, hpawn, hturn, hemp, ChessExample.is_valid_pawn_move]

/-- Claim C4, witness: on the initial board the single step (1,0) to (2,0)
is legal; on the initial board with a Black knight placed on (2,0), both
the double step to (3,0) and the single step to (2,0) are illegal. -/
theorem c4_witness :
    ChessExample.is_valid_move ChessExample.ChessBoard.new (1, 0) (2, 0) = true ∧
    ChessExample.is_valid_move
      { board := ChessExample.setSquare ChessExample.ChessBoard.new.board (2, 0)
          (some { piece_type := ChessExample.PieceType.Knight,
                  color := ChessExample.Color.Black })
        current_turn := ChessExample.Color.White } (1, 0) (3, 0) = false ∧
    ChessExample.is_valid_move
      { board := ChessExample.setSquare ChessExample.ChessBoard.new.board (2, 0)
          (some { piece_type := ChessExample.PieceType.Knight,
                  color := ChessExample.Color.Black })
        current_turn := ChessExample.Color.White } (1, 0) (2, 0) = false := by
  refine ⟨(c4_pawn_blocking ChessExample.ChessBoard.new (by decide) (by decide)).2.2 (by decide),
          (c4_pawn_blocking _ (by decide) (by decide)).1 (by decide),
          (c4_pawn_blocking _ (by decide) (by decide)).2.1 (by decide)⟩

/-- Claim C7: the knight shape predicate (which reads no occupancy at all)
from (1,1) accepts exactly the destinations (3,2), (3,0), (2,3) and (0,3)
among the 64 squares, and from (3,3) it accepts exactly 8 of the 64. -/
theorem c7_knight_destinations :
    (∀ t : Square, ChessExample.is_valid_knight_move (1, 1) t = true ↔
        (t = (3, 2) ∨ t = (3, 0) ∨ t = (2, 3) ∨ t = (0, 3))) ∧
    (Finset.univ.filter
      (fun t : Square => ChessExample.is_valid_knight_move (3, 3) t = true)).card = 8 := by
  refine ⟨by decide, by decide⟩

/-- Claim C8: whenever the origin and the destination both hold pieces of
the same color, is_valid_move returns false, whatever the board, the piece
kinds or the side to move. -/
theorem c8_no_self_capture :
    ∀ (b : ChessExample.ChessBoard) (frm t : Square) (p q : ChessExample.Piece),
      b.board frm.1 frm.2 = some p →
      b.board t.1 t.2 = some q →
      p.color = q.color →
      ChessExample.is_valid_move b frm t = false := by
  intro b frm t p q hfrm ht hpq
  by_cases he : frm = t
  · simp [ChessExample.is_valid_move, he]
  · have hbe : (frm == t) = false := by simp [he]
    simp [ChessExample.is_valid_move, hbe, hfrm, ht, ← hpq]

/-- Claim C8, witness: on the initial board the White rook on (0,0) may
not move onto the White rook on (0,7). -/
theorem c8_witness :
    ChessExample.is_valid_move ChessExample.ChessBoard.new (0, 0) (0, 7) = false :=
  c8_no_self_capture ChessExample.ChessBoard.new (0, 0) (0, 7)
    { piece_type := ChessExample.PieceType.Rook, color := ChessExample.Color.White }
    { piece_type := ChessExample.PieceType.Rook, color := ChessExample.Color.White }
    (by decide) (by decide) rfl

/-- Claim C9: whenever make_move returns true, every square other than the
origin and the destination is unchanged, and the destination afterwards
holds the piece that stood on the origin before the call. -/
theorem c9_frame :
    ∀ (b : ChessExample.ChessBoard) (frm t : Square),
      (ChessExample.make_move b frm t).1 = true →
      ((∀ sq : Square, sq ≠ frm → sq ≠ t →
          (ChessExample.make_move b frm t).2.board sq.1 sq.2 = b.board sq.1 sq.2) ∧
       (ChessExample.make_move b frm t).2.board t.1 t.2 = b.board frm.1 frm.2) := by
  intro b frm t h
  rw [ChessExample.make_move_fst] at h
  have hne : frm ≠ t := ChessExample.is_valid_move_ne h
  rw [ChessExample.make_move_board_of_valid h]
  constructor
  · intro sq hsf hst
    rw [ChessExample.setSquare_ne _ _ _ _ hsf, ChessExample.setSquare_ne _ _ _ _ hst]
  · rw [ChessExample.setSquare_ne _ _ _ _ (Ne.symm hne), ChessExample.setSquare_self]

/-- Claim C9, witness: applying the pawn move (1,4) to (3,4) on the initial
board puts the e-pawn on (3,4) and leaves the untouched square (0,4)
as it was. -/
theorem c9_witness :
    (ChessExample.make_move ChessExample.ChessBoard.new (1, 4) (3, 4)).2.board 3 4 =
      ChessExample.ChessBoard.new.board 1 4 ∧
    (ChessExample.make_move ChessExample.ChessBoard.new (1, 4) (3, 4)).2.board 0 4 =
      ChessExample.ChessBoard.new.board 0 4 := by
  have h := c9_frame ChessExample.ChessBoard.new (1, 4) (3, 4) (by decide)
  exact ⟨h.2, h.1 (0, 4) (by decide) (by decide)⟩

/-- Claim C10: a make_move call never increases the number of occupied
squares — the count is unchanged when the call returns false and when the
destination was empty, and drops by exactly one when a legal move lands on
an occupied square. -/
theorem c10_piece_count :
    ∀ (b : ChessExample.ChessBoard) (frm t : Square),
      ChessExample.occupiedCount (ChessExample.make_move b frm t).2 ≤
        ChessExample.occupiedCount b ∧
      ((ChessExample.make_move b frm t).1 = false →
        ChessExample.occupiedCount (ChessExample.make_move b frm t).2 =
          ChessExample.occupiedCount b) ∧
      ((ChessExample.make_move b frm t).1 = true → b.board t.1 t.2 = none →
        ChessExample.occupiedCount (ChessExample.make_move b frm t).2 =
          ChessExample.occupiedCount b) ∧
      ((ChessExample.make_move b frm t).1 = true → (b.board t.1 t.2).isSome = true →
        ChessExample.occupiedCount (ChessExample.make_move b frm t).2 + 1 =
          ChessExample.occupiedCount b) := by
  intro b frm t
  rw [ChessExample.make_move_fst]
  cases h : ChessExample.is_valid_move b frm t with
  | false =>
    rw [ChessExample.make_move_of_invalid h]
    exact ⟨le_refl _, fun _ => rfl, fun hc => absurd hc (by decide),
           fun hc => absurd hc (by decide)⟩
  | true =>
    have hkey := ChessExample.occupiedCount_make_move b frm t h
    refine ⟨?_, fun hc => absurd hc (by decide), fun _ hd => ?_, fun _ hs => ?_⟩
    · by_cases hd : (b.board t.1 t.2).isSome
      · rw [if_pos hd] at hkey
        omega
      · rw [if_neg hd] at hkey
        omega
    · rw [hd] at hkey
      simp at hkey
      exact hkey
    · rw [hs] at hkey
      simp at hkey
      exact hkey

/-- Claim C10, witness: the rejected null move (0,0) to (0,0) and the
legal non-capture (1,4) to (3,4) keep the count of occupied squares of the
initial board; a pawn capture from (1,0) onto a Black pawn placed on (2,1)
lowers it by exactly one. -/
theorem c10_witness :
    ChessExample.occupiedCount
        (ChessExample.make_move ChessExample.ChessBoard.new (0, 0) (0, 0)).2 =
      ChessExample.occupiedCount ChessExample.ChessBoard.new ∧
    ChessExample.occupiedCount
        (ChessExample.make_move ChessExample.ChessBoard.new (1, 4) (3, 4)).2 =
      ChessExample.occupiedCount ChessExample.ChessBoard.new ∧
    ChessExample.occupiedCount
        (ChessExample.make_move
          { board := ChessExample.setSquare ChessExample.ChessBoard.new.board (2, 1)
              (some { piece_type := ChessExample.PieceType.Pawn,
                      color := ChessExample.Color.Black })
            current_turn := ChessExample.Color.White } (1, 0) (2, 1)).2 + 1 =
      ChessExample.occupiedCount
        { board := ChessExample.setSquare ChessExample.ChessBoard.new.board (2, 1)
            (some { piece_type := ChessExample.PieceType.Pawn,
                    color := ChessExample.Color.Black })
          current_turn := ChessExample.Color.White } := by
  refine ⟨(c10_piece_count ChessExample.ChessBoard.new (0, 0) (0, 0)).2.1 (by decide),
          (c10_piece_count ChessExample.ChessBoard.new (1, 4) (3, 4)).2.2.1
            (by decide) (by decide),
          (c10_piece_count _ (1, 0) (2, 1)).2.2.2 (by decide) (by decide)⟩
